import Mathlib

/-!
Verification of the AoD weekly-newsletter report pipeline (`report.py`).

The pure logic of the scraping/extraction layer is shallowly embedded here:

* `classify_order_type` embeds `JobsStatusScraper._classify_order_type`;
* `parse_revenue_table` embeds `NetworkRevenue._parse_revenue_table`
  (input: the list of `<table>` elements, each a list of rows, each row the
  list of `<td>` texts);
* `download_report` embeds the validation prefix of
  `ConversionReportDownloader.download_report`, with the CSV-parsing tail as
  an explicit function parameter;
* `measurement_to_shipped` embeds
  `MeasurementShippedScraper.measurement_to_shipped` from the tag-stripped
  response body on (`FetchBody.empty` is an empty cleaned body,
  `FetchBody.table rows` the parsed CSV rows);
* `format_yoy_stat` embeds `PDFReportGenerator._format_yoy_stat`;
* `get_last_year` embeds `DateRange.get_last_year`, with Python's
  `datetime.replace` raising `ValueError` on an invalid date modelled by
  `Option`;
* `count_jobs_by_status` and `generate_report` embed
  `JobsStatusScraper.count_jobs_by_status` and
  `WeeklyReportGenerator.generate_report`, with network-touching collaborators
  as function parameters.

Machine floats in the source only ever hold exact decimal values (currency,
whole-day timestamp differences), so they are modelled by `ℚ`.
-/

/-! ## Python string primitives

All character-level operations are written by structural recursion over
`String.data` so that every definition evaluates inside the kernel.  The
rational operations are restored to their definitional reducibility so that
concrete runs of the embedded functions evaluate by `decide`. -/

unseal Rat.add Rat.mul Rat.sub Rat.inv Rat.ofScientific

set_option maxRecDepth 8192

/-- Decidable equality for `Except`, for evaluating results by `decide`. -/
instance {ε α : Type} [DecidableEq ε] [DecidableEq α] : DecidableEq (Except ε α) := fun x y =>
  match x, y with
  | .ok a, .ok b =>
    if h : a = b then .isTrue (by rw [h]) else .isFalse (by intro hc; cases hc; exact h rfl)
  | .error a, .error b =>
    if h : a = b then .isTrue (by rw [h]) else .isFalse (by intro hc; cases hc; exact h rfl)
  | .ok _, .error _ => .isFalse (by intro hc; cases hc)
  | .error _, .ok _ => .isFalse (by intro hc; cases hc)

/-- Split a char list at every occurrence of `c` (the separator is dropped;
the result is always nonempty). -/
def splitOnChar (c : Char) : List Char → List (List Char)
  | [] => [[]]
  | x :: xs =>
    if x = c then [] :: splitOnChar c xs
    else
      match splitOnChar c xs with
      | h :: t => (x :: h) :: t
      | [] => [[x]]

/-- Python `str.strip()` (whitespace trim at both ends). -/
def pyStrip (s : String) : String :=
  String.mk (((s.data.dropWhile Char.isWhitespace).reverse.dropWhile
    Char.isWhitespace).reverse)

/-- Python `str.lower()` (per-character lowercasing). -/
def pyLower (s : String) : String := String.mk (s.data.map Char.toLower)

/-- Python `s.startswith(p)`. -/
def pyStartsWith (s p : String) : Bool := p.data.isPrefixOf s.data

/-- Substring containment over char lists: Python `needle in hay`. -/
def hasInfix (needle : List Char) : List Char → Bool
  | [] => needle.isEmpty
  | c :: t => needle.isPrefixOf (c :: t) || hasInfix needle t

/-- Python `s.split(sep)` for a one-character separator. -/
def pySplit (s : String) (c : Char) : List String :=
  (splitOnChar c s.data).map String.mk

/-- Python `str.splitlines()` restricted to `\n` separators: `""` yields no
lines, and a trailing newline does not produce a trailing empty line. -/
def pySplitlines (s : String) : List String :=
  if s = "" then []
  else
    let parts := pySplit s '\n'
    if parts.getLast? = some "" then parts.dropLast else parts

/-- Python `s.replace(old, "")` for a one-character `old`. -/
def removeChar (s : String) (c : Char) : String :=
  String.mk (s.data.filter (fun x => x ≠ c))

/-- Python `s[:n]` (character-based prefix). -/
def pyTake (s : String) (n : ℕ) : String := String.mk (s.data.take n)

/-! ## Python numeric parsing -/

/-- Digits of a nonempty all-digit char list, as a number. -/
def natOfDigits : List Char → Option ℕ
  | [] => none
  | cs =>
    if cs.all Char.isDigit then
      some (cs.foldl (fun n c => 10 * n + (c.toNat - 48)) 0)
    else none

/-- Python `int(s)` on a decimal string (optional sign), `none` where Python
raises `ValueError`. -/
def pyInt (s : String) : Option ℤ :=
  match (pyStrip s).data with
  | '-' :: cs => (natOfDigits cs).map (fun n => -(n : ℤ))
  | '+' :: cs => (natOfDigits cs).map (fun n => (n : ℤ))
  | cs => (natOfDigits cs).map (fun n => (n : ℤ))

/-- Python `float(s)` on a plain decimal string (optional sign, optional
fractional part), `none` where Python raises `ValueError`.  The source only
feeds currency strings of this shape. -/
def pyFloat (s : String) : Option ℚ :=
  let parse : List Char → Option ℚ := fun cs =>
    match splitOnChar '.' cs with
    | [ip] => (natOfDigits ip).map (fun n => (n : ℚ))
    | [ip, fp] =>
      if ip.isEmpty && fp.isEmpty then none
      else
        match (if ip.isEmpty then some 0 else natOfDigits ip),
              (if fp.isEmpty then some 0 else natOfDigits fp) with
        | some i, some f => some ((i : ℚ) + (f : ℚ) / (10 : ℚ) ^ fp.length)
        | _, _ => none
    | _ => none
  match (pyStrip s).data with
  | '-' :: cs => (parse cs).map (fun q => -q)
  | '+' :: cs => parse cs
  | cs => parse cs

/-! ## C1: order-type classification (`JobsStatusScraper._classify_order_type`) -/

/-- A cell of the scraped `ID` column: a string, or a non-string value
(pandas can surface e.g. NaN floats). -/
inductive IdCell where
  | str (s : String)
  | nonString
deriving DecidableEq

/-- First character is a decimal digit: Python `re.match(r"^\d", s)` on the
ASCII digits the portal emits. -/
def firstCharIsDigit (s : String) : Bool :=
  match s.data with
  | [] => false
  | c :: _ => c.isDigit

/-- Embeds `JobsStatusScraper._classify_order_type`: non-strings map to
`"New"`; otherwise a leading `"C"` gives `"Claim"`, a leading `"R"` gives
`"Reorder"`, a leading digit gives `"New"`, and the fallthrough is `"New"`. -/
def classify_order_type : IdCell → String
  | .nonString => "New"
  | .str s =>
    if pyStartsWith s "C" then "Claim"
    else if pyStartsWith s "R" then "Reorder"
    else if firstCharIsDigit s then "New"
    else "New"

/-! ## Calendar dates and `DateRange` -/

/-- Proleptic-Gregorian leap-year test (as Python's `calendar`/`datetime`). -/
def isLeap (y : ℤ) : Bool :=
  Int.emod y 4 == 0 && (Int.emod y 100 != 0 || Int.emod y 400 == 0)

/-- Length of month `m` of year `y`. -/
def daysInMonth (y m : ℤ) : ℤ :=
  if m = 2 then (if isLeap y then 29 else 28)
  else if m = 4 ∨ m = 6 ∨ m = 9 ∨ m = 11 then 30
  else 31

/-- A Python `datetime.date`-like value. -/
structure PyDate where
  year : ℤ
  month : ℤ
  day : ℤ
deriving DecidableEq

/-- The constructibility condition `datetime.date` enforces. -/
def PyDate.validB (d : PyDate) : Bool :=
  decide (1 ≤ d.month) && decide (d.month ≤ 12) &&
  decide (1 ≤ d.day) && decide (d.day ≤ daysInMonth d.year d.month)

/-- Python `d.replace(year=y)`: `none` models the `ValueError` raised when
the resulting date does not exist (Feb 29 of a non-leap year). -/
def replace_year (d : PyDate) (y : ℤ) : Option PyDate :=
  if PyDate.validB ⟨y, d.month, d.day⟩ then some ⟨y, d.month, d.day⟩ else none

/-- Embeds the `DateRange` dataclass (`stop` is the source's `end` field). -/
structure PyDateRange where
  start : PyDate
  stop : PyDate
deriving DecidableEq

/-- Embeds `DateRange.get_last_year`: `replace(year=year-1)` on both
endpoints (start first, as evaluated in the source), `none` on the
`ValueError` path. -/
def get_last_year (r : PyDateRange) : Option PyDateRange :=
  match replace_year r.start (r.start.year - 1),
        replace_year r.stop (r.stop.year - 1) with
  | some s, some e => some ⟨s, e⟩
  | _, _ => none

/-- Days since 1970-01-01 of a civil date (standard era-based algorithm);
used to model timestamp subtraction. -/
def daysFromCivil (y m d : ℤ) : ℤ :=
  let y2 := if m ≤ 2 then y - 1 else y
  let era := Int.fdiv (if 0 ≤ y2 then y2 else y2 - 399) 400
  let yoe := y2 - era * 400
  let mp := Int.emod (m + 9) 12
  let doy := Int.fdiv (153 * mp + 2) 5 + d - 1
  let doe := yoe * 365 + Int.fdiv yoe 4 - Int.fdiv yoe 100 + doy
  era * 146097 + doe - 719468

/-- Models `pd.to_datetime(s, errors="coerce")` on the ISO `YYYY-MM-DD`
strings the portal emits: the timestamp as a day count, `none` for `NaT`. -/
def parseTimestamp (s : String) : Option ℤ :=
  match pySplit (pyStrip s) '-' with
  | [ys, ms, ds] =>
    match natOfDigits ys.data, natOfDigits ms.data, natOfDigits ds.data with
    | some y, some m, some d =>
      if 1 ≤ (m : ℤ) ∧ (m : ℤ) ≤ 12 ∧ 1 ≤ (d : ℤ) ∧
          (d : ℤ) ≤ daysInMonth (y : ℤ) (m : ℤ) then
        some (daysFromCivil (y : ℤ) (m : ℤ) (d : ℤ))
      else none
    | _, _, _ => none
  | _ => none

/-! ## C2/C5: revenue-table parsing (`NetworkRevenue._parse_revenue_table`) -/

/-- Errors of the revenue-table parse; the spec's `DataFormatError` family.
`valueError` carries the Python exception message. -/
inductive RevenueError where
  | indexError
  | valueError (msg : String)
deriving DecidableEq

/-- A ranked revenue row (`{"Rank": int, "Location": str, "Revenue": float}`). -/
structure RankedRow where
  rank : ℤ
  location : String
  revenue : ℚ
deriving DecidableEq

/-- The distinguished grand-total row (its rank cell stays a string). -/
structure TotalRow where
  rank : String
  location : String
  revenue : ℚ
deriving DecidableEq

/-- One pass over the `<tr>` rows of the table: rows without exactly three
`<td>` cells are skipped; each kept cell is stripped; the revenue cell has
`$` and `,` removed before `float` coercion; a row named `total`
(case-insensitively) overwrites the total slot, other rows append to the
ranked list after `int` coercion of the rank cell. -/
def parseRevenueRows : List (List String) → Option TotalRow → List RankedRow →
    Except RevenueError (Option TotalRow × List RankedRow)
  | [], total, acc => .ok (total, acc)
  | row :: rest, total, acc =>
    match row with
    | [c0, c1, c2] =>
      let rank := pyStrip c0
      let name := pyStrip c1
      let revenue := pyStrip c2
      match pyFloat (removeChar (removeChar revenue '$') ',') with
      | none => .error (.valueError ("could not convert string to float: " ++ revenue))
      | some rev =>
        if pyLower name == "total" then
          parseRevenueRows rest (some ⟨rank, name, rev⟩) acc
        else
          match pyInt rank with
          | none => .error (.valueError ("invalid literal for int() with base 10: " ++ rank))
          | some rk => parseRevenueRows rest total (acc ++ [⟨rk, name, rev⟩])
    | _ => parseRevenueRows rest total acc

/-- Stable descending insertion by revenue (ties keep earlier-inserted
elements first). -/
def insertByRevenue (x : RankedRow) : List RankedRow → List RankedRow
  | [] => [x]
  | y :: ys => if y.revenue ≤ x.revenue then x :: y :: ys else y :: insertByRevenue x ys

/-- Stable descending sort by revenue; `sortByRevenue l |>.take n` models
`DataFrame.nlargest(n, "Revenue")`. -/
def sortByRevenue (l : List RankedRow) : List RankedRow :=
  l.foldr insertByRevenue []

/-- Embeds `NetworkRevenue._parse_revenue_table` from the list of `<table>`
elements of the page (each a list of rows of `<td>` texts).  Returns the
source's `(df_total, df_top3)` pair. -/
def parse_revenue_table (tables : List (List (List String))) :
    Except RevenueError (TotalRow × List RankedRow) :=
  match tables.getLast? with
  | none => .error .indexError
  | some tbl =>
    match parseRevenueRows tbl none [] with
    | .error e => .error e
    | .ok (none, _) => .error (.valueError "Could not find total row in revenue table.")
    | .ok (some total, rows) => .ok (total, (sortByRevenue rows).take 3)

/-! ## C3/C8: cycle time (`MeasurementShippedScraper.measurement_to_shipped`) -/

/-- One parsed CSV record of the shipped-jobs listing: the two date-bearing
columns the method reads. -/
structure CTRow where
  dateShipped : String
  measurementApproved : String
deriving DecidableEq

/-- The tag-stripped response body: an empty string, or the CSV rows parsed
out of it. -/
inductive FetchBody where
  | empty
  | table (rows : List CTRow)
deriving DecidableEq

/-- Python `int(q)` for a float value: truncation toward zero. -/
def pyTrunc (q : ℚ) : ℤ := Int.tdiv q.num (q.den : ℤ)

/-- Per-row elapsed days: `Date Shipped` minus the last comma-separated
entry of `Measurement Approved Date` (both coerced with
`errors="coerce"`), `none` when either is `NaT`.  Dates are at midnight, so
`total_seconds()/86400` is the exact day-count difference. -/
def rowDaysDiff (r : CTRow) : Option ℚ :=
  let lastEntry := ((pySplit r.measurementApproved ',').getLast?).getD ""
  match parseTimestamp r.dateShipped, parseTimestamp (pyStrip lastEntry) with
  | some a, some b => some ((a - b : ℤ) : ℚ)
  | _, _ => none

/-- Embeds `MeasurementShippedScraper.measurement_to_shipped` from the
tag-stripped body on: empty body short-circuits to `(0.0, "No data")`;
otherwise rows without both timestamps are dropped, and an empty remainder
yields `(0.0, "No valid dates")`; else the mean of the day differences is
rendered as whole days and truncated whole hours. -/
def measurement_to_shipped : FetchBody → ℚ × String
  | .empty => (0, "No data")
  | .table rows =>
    let diffs := rows.filterMap rowDaysDiff
    match diffs with
    | [] => (0, "No valid dates")
    | _ =>
      let avg := diffs.sum / (diffs.length : ℚ)
      let days := pyTrunc avg
      let hours := pyTrunc ((avg - (days : ℚ)) * 24)
      (avg, toString days ++ " days, " ++ toString hours ++ " hours")

/-! ## C4: conversion report (`ConversionReportDownloader.download_report`) -/

/-- Failure modes of the conversion download: `indexError` models
`splitlines()[0]` on an empty body; `protocolError` the
header-validation `ValueError` (spec: `ProtocolError`), carrying the
exception message; `parseFailure` the CSV-parse `ValueError`. -/
inductive ConversionError where
  | indexError
  | protocolError (msg : String)
  | parseFailure (msg : String)
deriving DecidableEq

/-- Embeds `ConversionReportDownloader.download_report` as a function of the
export response body, with the CSV-parse-and-coerce tail (`pd.read_csv` plus
the integer column coercion) abstracted as `parseCsv`: the first line must
contain `"Call Center Rep"`, otherwise the method raises
`ValueError(f"Unexpected response format from Canvas: {csv_text[:500]}")`
before any parsing. -/
def download_report (parseCsv : String → Except ConversionError (List (String × ℤ)))
    (body : String) : Except ConversionError (List (String × ℤ)) :=
  match pySplitlines body with
  | [] => .error .indexError
  | firstLine :: _ =>
    if hasInfix "Call Center Rep".data firstLine.data then parseCsv body
    else .error (.protocolError ("Unexpected response format from Canvas: " ++ pyTake body 500))

/-! ## C7: year-over-year formatting (`PDFReportGenerator._format_yoy_stat`) -/

/-- The `try: delta / last_year * 100 except ZeroDivisionError: 0`
computation. -/
def percent_change (current last_year : ℚ) : ℚ :=
  if last_year = 0 then 0 else (current - last_year) / last_year * 100

/-- The arrow glyph: up for a non-negative percent change. -/
def yoy_arrow (pc : ℚ) : String := if 0 ≤ pc then "↑" else "↓"

/-- Python `format(q, '.1f')` for the exact decimal values arising here. -/
def formatFixed1 (q : ℚ) : String :=
  let n : ℤ := ⌊q * 10 + 1 / 2⌋
  toString (Int.tdiv n 10) ++ "." ++ toString (Int.emod n 10)

/-- `f"{abs(percent_change):.1f}%"`. -/
def percent_display (pc : ℚ) : String := formatFixed1 |pc| ++ "%"

/-- Digit grouping of Python's `,` format spec, from the right in threes. -/
def groupRev : List Char → List Char
  | d1 :: d2 :: d3 :: d4 :: rest => d1 :: d2 :: d3 :: ',' :: groupRev (d4 :: rest)
  | l => l

/-- `f"{n:,}"` for an integer. -/
def pyCommaInt (n : ℤ) : String :=
  (if n < 0 then "-" else "") ++
  String.mk ((groupRev (toString n.natAbs).data.reverse).reverse)

/-- Fuel-bounded decimal digits of a fraction in `[0, 1)`. -/
def fracDigits : ℕ → ℚ → String
  | 0, _ => ""
  | _, 0 => ""
  | fuel + 1, q =>
    let d := ⌊q * 10⌋
    toString d ++ fracDigits fuel (q * 10 - (d : ℚ))
termination_by structural fuel _ => fuel

/-- `f"{x:,}"`: comma-grouped rendering; the program's non-currency inputs
are integer counts, non-integers render their finite decimal expansion. -/
def plainDisplay (q : ℚ) : String :=
  if q.den = 1 then pyCommaInt q.num
  else (if q < 0 then "-" else "") ++ pyCommaInt ⌊|q|⌋ ++ "." ++
    fracDigits 17 (|q| - (⌊|q|⌋ : ℚ))

/-- `f"${x:,.2f}"`: currency rendering with two rounded decimals. -/
def currencyDisplay (q : ℚ) : String :=
  let n : ℤ := ⌊|q| * 100 + 1 / 2⌋
  (if q < 0 then "-$" else "$") ++ pyCommaInt (Int.tdiv n 100) ++ "." ++
  (if Int.emod n 100 < 10 then "0" else "") ++ toString (Int.emod n 100)

/-- Embeds `PDFReportGenerator._format_yoy_stat`. -/
def format_yoy_stat (label : String) (current last_year : ℚ)
    (is_currency : Bool) : String :=
  let pc := percent_change current last_year
  let arrow := yoy_arrow pc
  let current_display :=
    if is_currency then currencyDisplay current else plainDisplay current
  let last_year_display :=
    if is_currency then currencyDisplay last_year else plainDisplay last_year
  "<b>" ++ label ++ ":</b> " ++ current_display ++ " (" ++ arrow ++ " " ++
    percent_display pc ++ " vLY) (" ++ last_year_display ++ " LY)"

/-! ## C10: status counting (`JobsStatusScraper.count_jobs_by_status`) -/

/-- The fixed label-to-filter-id enumeration `JobsStatusScraper.STATUS_FILTERS`. -/
def STATUS_FILTERS : List (String × ℕ) :=
  [("Submitted to Manufacturing Partner", 5), ("Order Shipped", 6)]

/-- Embeds `JobsStatusScraper.count_jobs_by_status`, with
`_fetch_status_data` (URL building plus the HTTP request plus CSV parse) as
the function parameter `fetchStatusData`: an unknown status raises
`ValueError(f"Unknown status: {status_name}")` before that collaborator is
consulted. -/
def count_jobs_by_status {A : Type} (fetchStatusData : String → ℕ → PyDateRange → List A)
    (status_name : String) (date_range : PyDateRange) : Except String ℕ :=
  match STATUS_FILTERS.lookup status_name with
  | none => .error ("Unknown status: " ++ status_name)
  | some fid => .ok (fetchStatusData status_name fid date_range).length

/-! ## C6: orchestration (`WeeklyReportGenerator.generate_report`) -/

/-- The flat metrics record handed to `PDFReportGenerator.create_report`. -/
structure Metrics where
  ssc_current : ℤ
  ssc_last_year : ℤ
  shipped_current : ℕ
  shipped_last_year : ℕ
  submitted_current : ℕ
  submitted_last_year : ℕ
  revenue_current : ℚ
  revenue_last_year : ℚ
  avg_meas_current : ℚ
  avg_meas_lastyr : ℚ
  top3_locations : List RankedRow

/-- Embeds `WeeklyReportGenerator.generate_report` past the date-range
setup, with the network-touching extractors and the PDF renderer as
function parameters over an arbitrary error type `E`; the calls occur in the
source's evaluation order and any raised error propagates immediately. -/
def generate_report {E : Type}
    (getRevenueSummary : PyDateRange → Except E (ℚ × List RankedRow))
    (measToShipped : PyDateRange → Except E (ℚ × String))
    (getTotalOutbound : PyDateRange → Except E ℤ)
    (countJobs : String → PyDateRange → Except E ℕ)
    (createReport : Metrics → String)
    (current_range last_year_range : PyDateRange) : Except E String :=
  match getRevenueSummary current_range with
  | .error e => .error e
  | .ok (revenue_current, top3) =>
    match getRevenueSummary last_year_range with
    | .error e => .error e
    | .ok (revenue_last_year, _) =>
      match measToShipped current_range with
      | .error e => .error e
      | .ok (avg_cur, _) =>
        match measToShipped last_year_range with
        | .error e => .error e
        | .ok (avg_ly, _) =>
          match getTotalOutbound current_range with
          | .error e => .error e
          | .ok ssc_current =>
            match getTotalOutbound last_year_range with
            | .error e => .error e
            | .ok ssc_last_year =>
              match countJobs "Order Shipped" current_range with
              | .error e => .error e
              | .ok shipped_current =>
                match countJobs "Order Shipped" last_year_range with
                | .error e => .error e
                | .ok shipped_last_year =>
                  match countJobs "Submitted to Manufacturing Partner" current_range with
                  | .error e => .error e
                  | .ok submitted_current =>
                    match countJobs "Submitted to Manufacturing Partner" last_year_range with
                    | .error e => .error e
                    | .ok submitted_last_year =>
                      .ok (createReport
                        ⟨ssc_current, ssc_last_year, shipped_current,
                         shipped_last_year, submitted_current, submitted_last_year,
                         revenue_current, revenue_last_year, avg_cur, avg_ly, top3⟩)

/-! ## Helper lemmas -/

theorem pyStartsWith_single (s : String) (c b : Char) (bs : List Char)
    (hd : s.data = b :: bs) : pyStartsWith s (String.mk [c]) = (c == b) := by
  show List.isPrefixOf [c] s.data = (c == b)
  rw [hd, List.isPrefixOf_cons₂]
  simp

theorem pyStartsWith_empty (s : String) (c : Char) (hd : s.data = []) :
    pyStartsWith s (String.mk [c]) = false := by
  show List.isPrefixOf [c] s.data = false
  rw [hd]
  rfl

/-! ## C1 -/

/-- C1: order-type classification is a pure function of the id string: an id
with leading `"C"` classifies as Claim, leading `"R"` as Reorder, a leading
digit as New, anything else (empty string, other strings, non-string ids)
as New by default fallback; and the concrete cases `"C123"`, `"R45"`,
`"789"`, `""`, `"XYZ"` map to Claim, Reorder, New, New, New. -/
theorem classify_order_type_spec :
    (∀ s : String, pyStartsWith s "C" = true → classify_order_type (.str s) = "Claim") ∧
    (∀ s : String, pyStartsWith s "R" = true → classify_order_type (.str s) = "Reorder") ∧
    (∀ s : String, firstCharIsDigit s = true → classify_order_type (.str s) = "New") ∧
    (∀ s : String, pyStartsWith s "C" = false → pyStartsWith s "R" = false →
      classify_order_type (.str s) = "New") ∧
    classify_order_type .nonString = "New" ∧
    classify_order_type (.str "C123") = "Claim" ∧
    classify_order_type (.str "R45") = "Reorder" ∧
    classify_order_type (.str "789") = "New" ∧
    classify_order_type (.str "") = "New" ∧
    classify_order_type (.str "XYZ") = "New" := by
  refine ⟨?_, ?_, ?_, ?_, by decide, by decide, by decide, by decide, by decide, by decide⟩
  · intro s h
    simp [classify_order_type, h]
  · intro s h
    have hC : pyStartsWith s "C" = false := by
      cases hd : s.data with
      | nil => exact pyStartsWith_empty s 'C' hd
      | cons b bs =>
        have hR := pyStartsWith_single s 'R' b bs hd
        rw [show ("R" : String) = String.mk ['R'] from rfl, hR] at h
        have hb : b = 'R' := (eq_of_beq h).symm
        rw [show ("C" : String) = String.mk ['C'] from rfl,
          pyStartsWith_single s 'C' b bs hd, hb]
        decide
    simp [classify_order_type, hC, h]
  · intro s h
    cases hd : s.data with
    | nil => simp [firstCharIsDigit, hd] at h
    | cons b bs =>
      have hb : b.isDigit = true := by
        have hh := h
        rw [firstCharIsDigit, hd] at hh
        exact hh
      have hC : pyStartsWith s "C" = false := by
        rw [show ("C" : String) = String.mk ['C'] from rfl,
          pyStartsWith_single s 'C' b bs hd]
        cases hcb : ('C' == b) with
        | false => rfl
        | true =>
          have hbC : b = 'C' := (eq_of_beq hcb).symm
          rw [hbC] at hb
          simp at hb
      have hR : pyStartsWith s "R" = false := by
        rw [show ("R" : String) = String.mk ['R'] from rfl,
          pyStartsWith_single s 'R' b bs hd]
        cases hcb : ('R' == b) with
        | false => rfl
        | true =>
          have hbR : b = 'R' := (eq_of_beq hcb).symm
          rw [hbR] at hb
          simp at hb
      simp [classify_order_type, hC, hR]
  · intro s hC hR
    simp [classify_order_type, hC, hR]

/-- Witness for C1: the quantified branches evaluated at concrete ids. -/
theorem classify_order_type_spec_witness :
    pyStartsWith "Cab" "C" = true ∧ classify_order_type (.str "Cab") = "Claim" ∧
    pyStartsWith "R2" "R" = true ∧ classify_order_type (.str "R2") = "Reorder" ∧
    firstCharIsDigit "7x" = true ∧ classify_order_type (.str "7x") = "New" ∧
    pyStartsWith "zz" "C" = false ∧ pyStartsWith "zz" "R" = false ∧
    classify_order_type (.str "zz") = "New" :=
  ⟨by decide, classify_order_type_spec.1 "Cab" (by decide),
   by decide, classify_order_type_spec.2.1 "R2" (by decide),
   by decide, classify_order_type_spec.2.2.1 "7x" (by decide),
   by decide, by decide,
   classify_order_type_spec.2.2.2.1 "zz" (by decide) (by decide)⟩

/-! ## C2 and C5: revenue-table parsing -/

/-- C2: on an HTML input whose last table holds the five fixture rows,
revenue parsing strips `$` and thousands separators before numeric coercion,
extracts the grand total 26000.50 from the Total row, and returns the top 3
Austin, Dallas, Houston in that order, Tulsa excluded (an earlier table on
the page is ignored). -/
theorem parse_revenue_table_fixture :
    parse_revenue_table
      [[["1", "Phantom", "$99.99"]],
       [["1", "Austin", "$10,000.00"],
        ["2", "Dallas", "$8,500.50"],
        ["3", "Houston", "$7,000.00"],
        ["4", "Tulsa", "$500.00"],
        ["", "Total", "$26,000.50"]]] =
      .ok (⟨"", "Total", 26000.50⟩,
           [⟨1, "Austin", 10000⟩, ⟨2, "Dallas", 8500.50⟩, ⟨3, "Houston", 7000⟩]) := by
  decide

theorem sortByRevenue_cons (a : RankedRow) (l : List RankedRow) :
    sortByRevenue (a :: l) = insertByRevenue a (sortByRevenue l) := rfl

theorem mem_insertByRevenue (x y : RankedRow) (l : List RankedRow) :
    y ∈ insertByRevenue x l ↔ y = x ∨ y ∈ l := by
  induction l with
  | nil => simp [insertByRevenue]
  | cons a as ih =>
    simp only [insertByRevenue]
    split
    · simp
    · simp [ih]
      tauto

theorem mem_sortByRevenue (y : RankedRow) (l : List RankedRow) :
    y ∈ sortByRevenue l ↔ y ∈ l := by
  induction l with
  | nil => simp [sortByRevenue]
  | cons a as ih =>
    rw [sortByRevenue_cons, mem_insertByRevenue, ih]
    simp

/-- Scan invariant of `parseRevenueRows`: the total slot only ever holds a
row whose lowercased name is `"total"`, and the ranked accumulator never
holds one. -/
theorem parseRevenueRows_invariant :
    ∀ (rows : List (List String)) (tot : Option TotalRow) (acc : List RankedRow)
      (tot₂ : Option TotalRow) (acc₂ : List RankedRow),
      parseRevenueRows rows tot acc = .ok (tot₂, acc₂) →
      (∀ t, tot = some t → pyLower t.location = "total") →
      (∀ r ∈ acc, pyLower r.location ≠ "total") →
      (∀ t, tot₂ = some t → pyLower t.location = "total") ∧
      (∀ r ∈ acc₂, pyLower r.location ≠ "total") := by
  intro rows
  induction rows with
  | nil =>
    intro tot acc tot₂ acc₂ h htot hacc
    simp only [parseRevenueRows, Except.ok.injEq, Prod.mk.injEq] at h
    obtain ⟨h1, h2⟩ := h
    subst h1; subst h2
    exact ⟨htot, hacc⟩
  | cons row rest ih =>
    intro tot acc tot₂ acc₂ h htot hacc
    rcases row with _ | ⟨c0, _ | ⟨c1, _ | ⟨c2, _ | ⟨c3, r4⟩⟩⟩⟩
    · exact ih tot acc tot₂ acc₂ h htot hacc
    · exact ih tot acc tot₂ acc₂ h htot hacc
    · exact ih tot acc tot₂ acc₂ h htot hacc
    · simp only [parseRevenueRows] at h
      cases hf : pyFloat (removeChar (removeChar (pyStrip c2) '$') ',') with
      | none => rw [hf] at h; simp at h
      | some rev =>
        rw [hf] at h
        dsimp only at h
        cases hname : (pyLower (pyStrip c1) == "total") with
        | true =>
          simp only [hname, eq_self_iff_true, if_true] at h
          refine ih _ _ tot₂ acc₂ h ?_ hacc
          intro t ht
          cases ht
          exact eq_of_beq hname
        | false =>
          simp only [hname, Bool.false_eq_true, if_false] at h
          cases hr : pyInt (pyStrip c0) with
          | none => rw [hr] at h; simp at h
          | some rk =>
            rw [hr] at h
            dsimp only at h
            refine ih _ _ tot₂ acc₂ h htot ?_
            intro r hrmem
            rcases List.mem_append.mp hrmem with hL | hR
            · exact hacc r hL
            · rcases List.mem_singleton.mp hR with rfl
              intro hEq
              rw [show pyLower (pyStrip c1) = "total" from hEq] at hname
              simp at hname
    · exact ih tot acc tot₂ acc₂ h htot hacc

/-- Counterexample for C5 as stated: on a table with no total row the parse
fails, but the carried message is the source's
`"Could not find total row in revenue table."`, not the claim's
`"Could not find total row"`. -/
theorem parse_revenue_table_total_msg_cex :
    parse_revenue_table [[["1", "Austin", "$10.00"], ["2", "Dallas", "$5.00"]]] =
      .error (.valueError "Could not find total row in revenue table.") ∧
    (RevenueError.valueError "Could not find total row in revenue table." ≠
      RevenueError.valueError "Could not find total row") := by
  constructor
  · decide
  · decide

/-- C5 (amended): a row whose location equals `"Total"` case-insensitively
is extracted separately as the grand total and kept out of the ranked rows;
and when the row scan completes with no such row, parsing fails with the
error message `"Could not find total row in revenue table."`. -/
theorem parse_revenue_table_total_row :
    (∀ (tables : List (List (List String))) (total : TotalRow) (top3 : List RankedRow),
      parse_revenue_table tables = .ok (total, top3) →
      pyLower total.location = "total" ∧ ∀ r ∈ top3, pyLower r.location ≠ "total") ∧
    (∀ (tables : List (List (List String))) (tbl : List (List String))
        (acc : List RankedRow),
      tables.getLast? = some tbl →
      parseRevenueRows tbl none [] = .ok (none, acc) →
      parse_revenue_table tables =
        .error (.valueError "Could not find total row in revenue table.")) := by
  constructor
  · intro tables total top3 h
    unfold parse_revenue_table at h
    cases hl : tables.getLast? with
    | none => rw [hl] at h; simp at h
    | some tbl =>
      rw [hl] at h
      dsimp only at h
      cases hp : parseRevenueRows tbl none [] with
      | error e => rw [hp] at h; simp at h
      | ok p =>
        obtain ⟨topt, rows⟩ := p
        rw [hp] at h
        cases topt with
        | none => simp at h
        | some total0 =>
          simp only [Except.ok.injEq, Prod.mk.injEq] at h
          obtain ⟨h1, h2⟩ := h
          subst h1
          have hinv := parseRevenueRows_invariant tbl none [] (some total0) rows hp
            (by intro t ht; cases ht) (by intro r hr; cases hr)
          refine ⟨hinv.1 total0 rfl, ?_⟩
          intro r hr
          apply hinv.2
          rw [← mem_sortByRevenue]
          exact List.mem_of_mem_take (h2 ▸ hr)
  · intro tables tbl acc hl hp
    unfold parse_revenue_table
    rw [hl]
    dsimp only
    rw [hp]

/-- Witness for C5: both branches of the theorem applied at concrete
tables. -/
theorem parse_revenue_table_total_row_witness :
    (pyLower (⟨"", "Total", (18500.50 : ℚ)⟩ : TotalRow).location = "total" ∧
      ∀ r ∈ [(⟨1, "Austin", (10000 : ℚ)⟩ : RankedRow), ⟨2, "Dallas", 8500.50⟩],
        pyLower r.location ≠ "total") ∧
    parse_revenue_table [[["1", "Austin", "$10.00"]]] =
      .error (.valueError "Could not find total row in revenue table.") :=
  ⟨parse_revenue_table_total_row.1
      [[["1", "Austin", "$10,000.00"],
        ["2", "Dallas", "$8,500.50"],
        ["", "Total", "$18,500.50"]]]
      ⟨"", "Total", 18500.50⟩
      [⟨1, "Austin", 10000⟩, ⟨2, "Dallas", 8500.50⟩] (by decide),
   parse_revenue_table_total_row.2 [[["1", "Austin", "$10.00"]]]
     [["1", "Austin", "$10.00"]] [⟨1, "Austin", 10⟩] (by decide) (by decide)⟩

/-! ## C3 and C8: cycle-time averaging -/

/-- C3: on the two-row fixture, only the last comma-separated entry of the
measurement field is used (2024-01-05, giving 5.0 days), the row with the
unparsable measurement is dropped rather than counted as zero, and the
result is `(5.0, "5 days, 0 hours")`; a second fixture with average 5.4
days renders `"5 days, 9 hours"`, truncating (not rounding) the fractional
remainder into hours. -/
theorem measurement_to_shipped_fixture :
    rowDaysDiff ⟨"2024-01-10", "2024-01-01, 2024-01-05"⟩ = some 5 ∧
    rowDaysDiff ⟨"2024-01-20", "garbage"⟩ = none ∧
    measurement_to_shipped (.table
      [⟨"2024-01-10", "2024-01-01, 2024-01-05"⟩, ⟨"2024-01-20", "garbage"⟩]) =
      (5, "5 days, 0 hours") ∧
    measurement_to_shipped (.table
      [⟨"2024-01-10", "2024-01-05"⟩, ⟨"2024-01-12", "2024-01-07"⟩,
       ⟨"2024-01-12", "2024-01-07"⟩, ⟨"2024-01-12", "2024-01-07"⟩,
       ⟨"2024-01-12", "2024-01-05"⟩]) = (27/5, "5 days, 9 hours") := by
  refine ⟨by decide, by decide, by decide, by decide⟩

/-- Counterexample for C8 as stated: when no row yields a day difference the
method returns the sentinel `(0.0, "No valid dates")` (and `(0.0, "No
data")` for an empty body) — neither equals the claim's `(0.0, "no data")`. -/
theorem measurement_to_shipped_sentinel_cex :
    measurement_to_shipped (.table [⟨"junk", "junk"⟩]) = (0, "No valid dates") ∧
    measurement_to_shipped .empty = (0, "No data") ∧
    measurement_to_shipped (.table [⟨"junk", "junk"⟩]) ≠ ((0 : ℚ), "no data") ∧
    measurement_to_shipped .empty ≠ ((0 : ℚ), "no data") := by
  refine ⟨by decide, by decide, by decide, by decide⟩

/-- C8 (amended): a fetch in which no row has both timestamps parseable
returns a zero sentinel rather than raising — `(0.0, "No data")` for an
empty tag-stripped body and `(0.0, "No valid dates")` when rows exist but
none contributes a day difference. -/
theorem measurement_to_shipped_sentinel :
    measurement_to_shipped .empty = (0, "No data") ∧
    ∀ rows : List CTRow, (∀ r ∈ rows, rowDaysDiff r = none) →
      measurement_to_shipped (.table rows) = (0, "No valid dates") := by
  constructor
  · rfl
  · intro rows hnone
    have hfm : rows.filterMap rowDaysDiff = [] := by
      simp [List.filterMap_eq_nil_iff]
      exact hnone
    unfold measurement_to_shipped
    dsimp only
    rw [hfm]

/-- Witness for C8: the quantified branch at a one-row table whose
timestamps both fail to parse. -/
theorem measurement_to_shipped_sentinel_witness :
    (∀ r ∈ [CTRow.mk "garbage" "2024-13-99"], rowDaysDiff r = none) ∧
    measurement_to_shipped (.table [⟨"garbage", "2024-13-99"⟩]) =
      (0, "No valid dates") :=
  ⟨by decide, measurement_to_shipped_sentinel.2 [⟨"garbage", "2024-13-99"⟩] (by decide)⟩

/-! ## C4: conversion-report header validation -/

/-- C4: whenever the first line of the conversion-export body lacks the
`"Call Center Rep"` header fragment, the download fails with the protocol
error carrying the first 500 characters of the body, for every possible
CSV-parsing continuation — so parsing and summation are never attempted. -/
theorem download_report_header_guard :
    ∀ (parseCsv : String → Except ConversionError (List (String × ℤ)))
      (body firstLine : String) (rest : List String),
      pySplitlines body = firstLine :: rest →
      hasInfix "Call Center Rep".data firstLine.data = false →
      download_report parseCsv body =
        .error (.protocolError
          ("Unexpected response format from Canvas: " ++ pyTake body 500)) := by
  intro parseCsv body firstLine rest hsplit hno
  unfold download_report
  rw [hsplit]
  dsimp only
  rw [hno]
  simp

/-- Witness for C4: the guard at a concrete HTML login page body. -/
theorem download_report_header_guard_witness :
    pySplitlines "<html>Login page</html>" = ["<html>Login page</html>"] ∧
    hasInfix "Call Center Rep".data "<html>Login page</html>".data = false ∧
    download_report (fun _ => .ok []) "<html>Login page</html>" =
      .error (.protocolError
        ("Unexpected response format from Canvas: " ++
          pyTake "<html>Login page</html>" 500)) :=
  ⟨by decide, by decide,
   download_report_header_guard (fun _ => .ok []) "<html>Login page</html>"
     "<html>Login page</html>" [] (by decide) (by decide)⟩

/-! ## C7: year-over-year percent formatting -/

/-- C7: current 110 against last year 100 renders `↑ 10.0%`; and for every
current value with a zero last-year baseline, the `ZeroDivisionError`
fallback yields a 0 percent change displayed with the up arrow as `0.0%`,
never an error, infinity, or N/A. -/
theorem format_yoy_stat_spec :
    format_yoy_stat "SSC Touches" 110 100 false =
      "<b>SSC Touches:</b> 110 (↑ 10.0% vLY) (100 LY)" ∧
    format_yoy_stat "X" 90 0 false = "<b>X:</b> 90 (↑ 0.0% vLY) (0 LY)" ∧
    ∀ current : ℚ, percent_change current 0 = 0 ∧
      yoy_arrow (percent_change current 0) = "↑" ∧
      percent_display (percent_change current 0) = "0.0%" := by
  refine ⟨by decide, by decide, ?_⟩
  intro c
  have h : percent_change c 0 = 0 := by simp [percent_change]
  refine ⟨h, ?_, ?_⟩
  · rw [h]; decide
  · rw [h]; decide

/-! ## C9: shifting a date range back one year -/

theorem daysInMonth_lb (y m : ℤ) : 28 ≤ daysInMonth y m := by
  unfold daysInMonth
  by_cases hm : m = 2
  · rw [if_pos hm]
    cases hl : isLeap y <;> simp [hl]
  · rw [if_neg hm]
    split <;> omega

theorem daysInMonth_year_irrel (y z m : ℤ) (hm : m ≠ 2) :
    daysInMonth y m = daysInMonth z m := by
  unfold daysInMonth
  rw [if_neg hm, if_neg hm]

/-- A valid date that is not Feb 29 stays valid when its year is replaced. -/
theorem validB_replace (d : PyDate) (y : ℤ) (hv : d.validB = true)
    (hnl : ¬(d.month = 2 ∧ d.day = 29)) :
    PyDate.validB ⟨y, d.month, d.day⟩ = true := by
  unfold PyDate.validB at hv ⊢
  simp only [Bool.and_eq_true, decide_eq_true_eq] at hv ⊢
  obtain ⟨⟨⟨h1, h2⟩, h3⟩, h4⟩ := hv
  refine ⟨⟨⟨h1, h2⟩, h3⟩, ?_⟩
  by_cases hm : d.month = 2
  · have hub : daysInMonth d.year d.month ≤ 29 := by
      rw [hm]
      unfold daysInMonth
      rw [if_pos rfl]
      cases hl : isLeap d.year <;> simp [hl]
    have hne : d.day ≠ 29 := fun hc => hnl ⟨hm, hc⟩
    have h28 : d.day ≤ 28 := by omega
    have hlb := daysInMonth_lb y d.month
    omega
  · rw [daysInMonth_year_irrel y d.year d.month hm]
    exact h4

theorem replace_year_eq (d : PyDate) (y : ℤ) (hv : d.validB = true)
    (hnl : ¬(d.month = 2 ∧ d.day = 29)) :
    replace_year d y = some ⟨y, d.month, d.day⟩ := by
  unfold replace_year
  rw [validB_replace d y hv hnl]
  simp

/-- Counterexample for C9 as stated: applying the shift twice to the range
2024-03-01..2024-03-05 yields the 2022 range, not the original. -/
theorem get_last_year_involution_cex :
    (get_last_year ⟨⟨2024, 3, 1⟩, ⟨2024, 3, 5⟩⟩).bind get_last_year =
      some ⟨⟨2022, 3, 1⟩, ⟨2022, 3, 5⟩⟩ ∧
    (get_last_year ⟨⟨2024, 3, 1⟩, ⟨2024, 3, 5⟩⟩).bind get_last_year ≠
      some ⟨⟨2024, 3, 1⟩, ⟨2024, 3, 5⟩⟩ := by
  refine ⟨by decide, by decide⟩

/-- C9 (amended): each application of the shift decrements the year of both
endpoints, leaving month and day unchanged, so applying it twice returns the
range two years back — except a leap-day endpoint, where `replace` raises
(here: 2024-02-29 maps to no result). -/
theorem get_last_year_shift :
    (∀ r : PyDateRange,
      r.start.validB = true → r.stop.validB = true →
      ¬(r.start.month = 2 ∧ r.start.day = 29) →
      ¬(r.stop.month = 2 ∧ r.stop.day = 29) →
      get_last_year r = some ⟨⟨r.start.year - 1, r.start.month, r.start.day⟩,
        ⟨r.stop.year - 1, r.stop.month, r.stop.day⟩⟩ ∧
      (get_last_year r).bind get_last_year =
        some ⟨⟨r.start.year - 2, r.start.month, r.start.day⟩,
          ⟨r.stop.year - 2, r.stop.month, r.stop.day⟩⟩) ∧
    get_last_year ⟨⟨2024, 2, 29⟩, ⟨2024, 3, 5⟩⟩ = none := by
  refine ⟨?_, by decide⟩
  intro r hs he hnls hnle
  have h1 : get_last_year r = some ⟨⟨r.start.year - 1, r.start.month, r.start.day⟩,
      ⟨r.stop.year - 1, r.stop.month, r.stop.day⟩⟩ := by
    unfold get_last_year
    rw [replace_year_eq r.start _ hs hnls, replace_year_eq r.stop _ he hnle]
  refine ⟨h1, ?_⟩
  rw [h1]
  show get_last_year ⟨⟨r.start.year - 1, r.start.month, r.start.day⟩,
    ⟨r.stop.year - 1, r.stop.month, r.stop.day⟩⟩ = _
  have hs2 : PyDate.validB ⟨r.start.year - 1, r.start.month, r.start.day⟩ = true :=
    validB_replace r.start _ hs hnls
  have he2 : PyDate.validB ⟨r.stop.year - 1, r.stop.month, r.stop.day⟩ = true :=
    validB_replace r.stop _ he hnle
  unfold get_last_year
  rw [replace_year_eq ⟨r.start.year - 1, r.start.month, r.start.day⟩ _ hs2 hnls,
    replace_year_eq ⟨r.stop.year - 1, r.stop.month, r.stop.day⟩ _ he2 hnle]
  have ha : r.start.year - 1 - 1 = r.start.year - 2 := by ring
  have hb : r.stop.year - 1 - 1 = r.stop.year - 2 := by ring
  rw [ha, hb]

/-- Witness for C9: the shift applied once and twice to a concrete
non-leap-day range. -/
theorem get_last_year_shift_witness :
    get_last_year ⟨⟨2024, 6, 15⟩, ⟨2024, 7, 1⟩⟩ =
      some ⟨⟨2023, 6, 15⟩, ⟨2023, 7, 1⟩⟩ ∧
    (get_last_year ⟨⟨2024, 6, 15⟩, ⟨2024, 7, 1⟩⟩).bind get_last_year =
      some ⟨⟨2022, 6, 15⟩, ⟨2022, 7, 1⟩⟩ :=
  get_last_year_shift.1 ⟨⟨2024, 6, 15⟩, ⟨2024, 7, 1⟩⟩
    (by decide) (by decide) (by decide) (by decide)

/-! ## C10: unknown status names -/

/-- C10: for every status name outside the fixed two-entry enumeration, the
count raises `ValueError("Unknown status: ...")` uniformly in the fetch
collaborator — no URL is built and no request is issued. -/
theorem count_jobs_by_status_unknown :
    ∀ {A : Type} (fetchStatusData : String → ℕ → PyDateRange → List A)
      (status_name : String) (dr : PyDateRange),
      status_name ≠ "Submitted to Manufacturing Partner" →
      status_name ≠ "Order Shipped" →
      count_jobs_by_status fetchStatusData status_name dr =
        .error ("Unknown status: " ++ status_name) := by
  intro A f st dr h1 h2
  have e1 : (st == "Submitted to Manufacturing Partner") = false :=
    beq_eq_false_iff_ne.mpr h1
  have e2 : (st == "Order Shipped") = false := beq_eq_false_iff_ne.mpr h2
  simp [count_jobs_by_status, STATUS_FILTERS, List.lookup, e1, e2]

/-- Witness for C10: the guard at a concrete unknown status. -/
theorem count_jobs_by_status_unknown_witness :
    ("Bogus" : String) ≠ "Submitted to Manufacturing Partner" ∧
    ("Bogus" : String) ≠ "Order Shipped" ∧
    count_jobs_by_status (fun _ _ _ => ([] : List Unit)) "Bogus"
      ⟨⟨2024, 1, 1⟩, ⟨2024, 1, 31⟩⟩ = .error ("Unknown status: " ++ "Bogus") :=
  ⟨by decide, by decide,
   count_jobs_by_status_unknown (fun _ _ _ => ([] : List Unit)) "Bogus"
     ⟨⟨2024, 1, 1⟩, ⟨2024, 1, 31⟩⟩ (by decide) (by decide)⟩

/-! ## C6: fail-fast orchestration -/

/-- C6: every run of the orchestrator either succeeds — in which case all
ten extractor calls (current and prior-year windows) succeeded and the PDF
renderer was applied to their results — or aborts with an error raised by
one of the extractor calls, with no partial-result recovery and no retry,
and no PDF value is produced. -/
theorem generate_report_fail_fast {E : Type}
    (getRevenueSummary : PyDateRange → Except E (ℚ × List RankedRow))
    (measToShipped : PyDateRange → Except E (ℚ × String))
    (getTotalOutbound : PyDateRange → Except E ℤ)
    (countJobs : String → PyDateRange → Except E ℕ)
    (createReport : Metrics → String)
    (cur ly : PyDateRange) :
    (∃ rc t3 rl t3b ac hc al hl sc sl jc jl uc ul,
      getRevenueSummary cur = .ok (rc, t3) ∧
      getRevenueSummary ly = .ok (rl, t3b) ∧
      measToShipped cur = .ok (ac, hc) ∧
      measToShipped ly = .ok (al, hl) ∧
      getTotalOutbound cur = .ok sc ∧
      getTotalOutbound ly = .ok sl ∧
      countJobs "Order Shipped" cur = .ok jc ∧
      countJobs "Order Shipped" ly = .ok jl ∧
      countJobs "Submitted to Manufacturing Partner" cur = .ok uc ∧
      countJobs "Submitted to Manufacturing Partner" ly = .ok ul ∧
      generate_report getRevenueSummary measToShipped getTotalOutbound countJobs
        createReport cur ly =
        .ok (createReport ⟨sc, sl, jc, jl, uc, ul, rc, rl, ac, al, t3⟩)) ∨
    (∃ e, generate_report getRevenueSummary measToShipped getTotalOutbound countJobs
        createReport cur ly = .error e ∧
      (getRevenueSummary cur = .error e ∨ getRevenueSummary ly = .error e ∨
       measToShipped cur = .error e ∨ measToShipped ly = .error e ∨
       getTotalOutbound cur = .error e ∨ getTotalOutbound ly = .error e ∨
       countJobs "Order Shipped" cur = .error e ∨
       countJobs "Order Shipped" ly = .error e ∨
       countJobs "Submitted to Manufacturing Partner" cur = .error e ∨
       countJobs "Submitted to Manufacturing Partner" ly = .error e)) := by
  cases h1 : getRevenueSummary cur with
  | error e => exact Or.inr ⟨e, by simp [generate_report, h1], Or.inl rfl⟩
  | ok p1 =>
    obtain ⟨rc, t3⟩ := p1
    cases h2 : getRevenueSummary ly with
    | error e =>
      exact Or.inr ⟨e, by simp [generate_report, h1, h2], Or.inr (Or.inl rfl)⟩
    | ok p2 =>
      obtain ⟨rl, t3b⟩ := p2
      cases h3 : measToShipped cur with
      | error e =>
        exact Or.inr ⟨e, by simp [generate_report, h1, h2, h3],
          Or.inr (Or.inr (Or.inl rfl))⟩
      | ok p3 =>
        obtain ⟨ac, hc⟩ := p3
        cases h4 : measToShipped ly with
        | error e =>
          exact Or.inr ⟨e, by simp [generate_report, h1, h2, h3, h4],
            Or.inr (Or.inr (Or.inr (Or.inl rfl)))⟩
        | ok p4 =>
          obtain ⟨al, hl⟩ := p4
          cases h5 : getTotalOutbound cur with
          | error e =>
            exact Or.inr ⟨e, by simp [generate_report, h1, h2, h3, h4, h5],
              Or.inr (Or.inr (Or.inr (Or.inr (Or.inl rfl))))⟩
          | ok sc =>
            cases h6 : getTotalOutbound ly with
            | error e =>
              exact Or.inr ⟨e, by simp [generate_report, h1, h2, h3, h4, h5, h6],
                Or.inr (Or.inr (Or.inr (Or.inr (Or.inr (Or.inl rfl)))))⟩
            | ok sl =>
              cases h7 : countJobs "Order Shipped" cur with
              | error e =>
                exact Or.inr ⟨e,
                  by simp [generate_report, h1, h2, h3, h4, h5, h6, h7],
                  Or.inr (Or.inr (Or.inr (Or.inr (Or.inr (Or.inr (Or.inl rfl))))))⟩
              | ok jc =>
                cases h8 : countJobs "Order Shipped" ly with
                | error e =>
                  exact Or.inr ⟨e,
                    by simp [generate_report, h1, h2, h3, h4, h5, h6, h7, h8],
                    Or.inr (Or.inr (Or.inr (Or.inr (Or.inr (Or.inr (Or.inr
                      (Or.inl rfl)))))))⟩
                | ok jl =>
                  cases h9 : countJobs "Submitted to Manufacturing Partner" cur with
                  | error e =>
                    exact Or.inr ⟨e,
                      by simp [generate_report, h1, h2, h3, h4, h5, h6, h7, h8, h9],
                      Or.inr (Or.inr (Or.inr (Or.inr (Or.inr (Or.inr (Or.inr
                        (Or.inr (Or.inl rfl))))))))⟩
                  | ok uc =>
                    cases h10 : countJobs "Submitted to Manufacturing Partner" ly with
                    | error e =>
                      exact Or.inr ⟨e,
                        by simp [generate_report, h1, h2, h3, h4, h5, h6, h7, h8,
                          h9, h10],
                        Or.inr (Or.inr (Or.inr (Or.inr (Or.inr (Or.inr (Or.inr
                          (Or.inr (Or.inr rfl))))))))⟩
                    | ok ul =>
                      exact Or.inl ⟨rc, t3, rl, t3b, ac, hc, al, hl, sc, sl,
                        jc, jl, uc, ul, rfl, rfl, rfl, rfl, rfl, rfl, rfl, rfl, rfl, rfl,
                        by simp [generate_report, h1, h2, h3, h4, h5, h6, h7, h8,
                          h9, h10]⟩
